import Mathlib

/-!
Verification of the Ezkito conversion dispatch core (src/convert/views.py)
against its natural-language specification.

The embedding models the POST path of `file_converter`: format validation,
the capability matrix `ALLOWED_CONVERSIONS`, strategy dispatch, the
conversion helpers, scratch-directory lifecycle, and response packaging.
External capabilities (Pillow, LibreOffice, reportlab, pdf2image, ffmpeg)
are modelled at the boundary described in the source: an image decodes to a
pixel mode, a PDF rasterises to a list of page images, and each external
tool either is missing, exits non-zero, runs without producing output, or
succeeds.
-/

namespace Ezkito

/-- Content of an uploaded file, as seen through the library boundaries the
view uses: `PIL.Image.open` succeeds exactly on image content and yields a
pixel mode; `pdf2image.convert_from_bytes` succeeds exactly on PDF content
and yields one page image (with its pixel mode) per page; anything else is
an opaque byte blob (office documents, text, media). -/
inductive FileContent
  | image (mode : String)
  | pdf (pageModes : List String)
  | blob
deriving DecidableEq

/-- A Django `UploadedFile` as the view consumes it: a declared name and a
byte content stream. -/
structure UploadedFile where
  name : String
  content : FileContent
deriving DecidableEq

def FileContent.isImage : FileContent → Bool
  | .image _ => true
  | _ => false

def FileContent.isPdf : FileContent → Bool
  | .pdf _ => true
  | _ => false

/-- The page images `convert_from_bytes` would return for this file
(empty for non-PDF content, where the call raises instead). -/
def UploadedFile.pageModes (f : UploadedFile) : List String :=
  match f.content with
  | .pdf ms => ms
  | _ => []

/-- views.py lines 30-68: the literal capability matrix. -/
def ALLOWED_CONVERSIONS : List (String × String) :=
  [ ("png", "jpg"), ("png", "jpeg"), ("jpg", "png"), ("jpg", "jpeg"),
    ("jpeg", "png"), ("jpeg", "jpg"),
    ("png", "pdf"), ("jpg", "pdf"), ("jpeg", "pdf"),
    ("docx", "pdf"), ("pptx", "pdf"), ("xlsx", "pdf"), ("txt", "pdf"),
    ("pdf", "png"), ("pdf", "jpg"), ("pdf", "jpeg"),
    ("mp4", "mp3"), ("mp4", "wav"), ("mov", "mp3"), ("avi", "mp3"),
    ("mkv", "mp3"),
    ("mp3", "mp4"), ("wav", "mp4"), ("m4a", "mp4"), ("aac", "mp4"),
    ("ogg", "mp4") ]

/-- views.py line 70. -/
def IMAGE_FORMATS : List String := ["png", "jpg", "jpeg"]

/-- views.py line 71. -/
def DOC_FORMATS : List String := ["docx", "pptx", "xlsx"]

/-- views.py line 72. -/
def VIDEO_FORMATS : List String := ["mp4", "mov", "avi", "mkv"]

/-- views.py line 73. -/
def AUDIO_FORMATS : List String := ["mp3", "wav", "m4a", "aac", "ogg"]

/-- ASCII lower-casing of one character (Python `str.lower` restricted to
the ASCII identifiers this view compares). -/
def lowerChar (c : Char) : Char :=
  if 65 ≤ c.toNat ∧ c.toNat ≤ 90 then Char.ofNat (c.toNat + 32) else c

/-- ASCII upper-casing of one character (Python `str.upper`). -/
def upperChar (c : Char) : Char :=
  if 97 ≤ c.toNat ∧ c.toNat ≤ 122 then Char.ofNat (c.toNat - 32) else c

/-- Python `s.lower()` (ASCII). -/
def lowerStr (s : String) : String := String.mk (s.data.map lowerChar)

/-- Python `s.upper()` (ASCII). -/
def upperStr (s : String) : String := String.mk (s.data.map upperChar)

/-- Python `"." in name`. -/
def hasDot (name : String) : Bool := name.data.contains '.'

/-- Python `name.rsplit(".", 1)[-1]`: the substring after the final dot,
or the whole name when there is no dot. -/
def rsplitExt (name : String) : String :=
  if hasDot name then String.mk ((name.data.reverse.takeWhile (fun c => c != '.')).reverse)
  else name

/-- Python `name.rsplit(".", 1)[0]`: everything before the final dot, or
the whole name when there is no dot. -/
def baseOf (name : String) : String :=
  if hasDot name then String.mk (((name.data.reverse.dropWhile (fun c => c != '.')).tail).reverse)
  else name

/-- views.py lines 139-145: a file fails the extension check when its name
has no dot, or when the lower-cased substring after the final dot differs
from the source format. -/
def invalidExt (from_format : String) (name : String) : Bool :=
  if hasDot name then lowerStr (rsplitExt name) != from_format
  else true

/-- The validation error classes of views.py lines 117-150 (the spec's
MissingField / UnsupportedConversion / NoFilesProvided / ExtensionMismatch
taxonomy). -/
inductive ValidationError
  | missingBoth
  | missingSource
  | missingTarget
  | unsupportedConversion (s t : String)
  | noFiles
  | extensionMismatch (s : String) (names : List String)
deriving DecidableEq

/-- The user-facing message each validation error renders with
(views.py lines 119-149). -/
def ValidationError.message : ValidationError → String
  | .missingBoth => "Please select both source and target formats."
  | .missingSource => "Please select a source format."
  | .missingTarget => "Please select a target format."
  | .unsupportedConversion s t =>
      "Conversion from " ++ upperStr s ++ " to " ++ upperStr t ++ " is not supported."
  | .noFiles => "Please upload at least one file."
  | .extensionMismatch s names =>
      "The following files do not match ." ++ s ++ ": " ++ String.intercalate ", " names

/-- views.py lines 117-150: the validation chain of `file_converter`, run in
the source order: missing formats, then capability-matrix membership, then
non-empty file list, then the extension check over all files (collecting
every offender, in input order). Returns `none` when validation passes. -/
def validate (from_format to_format : String) (files : List UploadedFile) :
    Option ValidationError :=
  if from_format = "" ∧ to_format = "" then some .missingBoth
  else if from_format = "" then some .missingSource
  else if to_format = "" then some .missingTarget
  else if (from_format, to_format) ∈ ALLOWED_CONVERSIONS then
    if files = [] then some .noFiles
    else if files.filter (fun f => invalidExt from_format f.name) = [] then none
    else some (.extensionMismatch from_format
      ((files.filter (fun f => invalidExt from_format f.name)).map (fun f => f.name)))
  else some (.unsupportedConversion from_format to_format)

/-- A Pillow image object: the only attribute the view inspects is the
pixel mode. -/
structure PILImage where
  mode : String
deriving DecidableEq

/-- State of an external tool executable (soffice, ffmpeg): absent from
PATH, runs but exits non-zero, runs successfully but leaves no output
file, or succeeds. -/
inductive ExtTool
  | missing
  | failsNonzero
  | okNoOutput
  | ok
deriving DecidableEq

/-- The process environment the view depends on: the two optional imports
of views.py lines 14-24 and the two external executables. -/
structure Env where
  pdf2image : Bool
  reportlab : Bool
  soffice : ExtTool
  ffmpeg : ExtTool
deriving DecidableEq

/-- Filesystem scratch state: a fresh-name counter and the identifiers of
currently existing scratch directories (one per `tempfile.mkdtemp` or
`tempfile.TemporaryDirectory` allocation). -/
structure Fs where
  nextId : Nat
  liveDirs : List Nat
deriving DecidableEq

/-- The Python exceptions the conversion helpers can raise; each carries
what `str(e)` would interpolate into the user-facing error message. -/
inductive Exc
  | fileNotFound (path : String)
  | calledProcess
  | decodeError (name : String)
  | runtimeError (m : String)
  | valueError (m : String)
deriving DecidableEq

/-- `str(e)` of each modelled exception. -/
def Exc.msg : Exc → String
  | .fileNotFound path => "[Errno 2] No such file or directory: " ++ path
  | .calledProcess => "Command returned non-zero exit status 1."
  | .decodeError name => "cannot identify image file " ++ name
  | .runtimeError m => m
  | .valueError m => m

/-- A produced artifact body, abstracted to what the claims observe:
Pillow-written PDFs keep one pixel mode per page; externally rendered PDFs
(LibreOffice, reportlab) are opaque; images keep their format and pixel
mode; audio and video keep their format. -/
inductive Payload
  | pdfDoc (pageModes : List String)
  | renderedPdf
  | imageFile (fmt : String) (mode : String)
  | audioFile (fmt : String)
  | videoFile (fmt : String)
deriving DecidableEq

/-- A `FileResponse` as the view constructs it: either one named file with
a content type, or a zip archive of named entries with a content type. -/
inductive FileResp
  | file (filename : String) (payload : Payload) (content_type : String)
  | zip (filename : String) (entries : List (String × Payload)) (content_type : String)
deriving DecidableEq

/-- What the view returns for a POST: a `FileResponse`, or the rendered
form page carrying an error message (`_render` with `error_message`). -/
inductive Outcome
  | resp (r : FileResp)
  | errorPage (message : String)
deriving DecidableEq

/-- views.py line 357: `Image.open(f)` — succeeds exactly on image content. -/
def Image_open (f : UploadedFile) : Except Exc PILImage :=
  match f.content with
  | .image m => .ok ⟨m⟩
  | _ => .error (.decodeError f.name)

/-- views.py lines 355-360: open an uploaded file as a Pillow image and
convert it to RGB mode when it is not already RGB. -/
def open_image_from_uploaded (f : UploadedFile) : Except Exc PILImage :=
  match Image_open f with
  | .error e => .error e
  | .ok img => .ok (if img.mode != "RGB" then ⟨"RGB"⟩ else img)

/-- The per-file loop of `_merge_images_into_single_pdf` (views.py lines
374-377): open every uploaded file, propagating the first failure. -/
def openAll : List UploadedFile → Except Exc (List PILImage)
  | [] => .ok []
  | f :: rest =>
    match open_image_from_uploaded f with
    | .error e => .error e
    | .ok img =>
      match openAll rest with
      | .error e => .error e
      | .ok imgs => .ok (img :: imgs)

/-- views.py lines 363-369: one uploaded image to a one-page PDF. -/
def single_image_to_pdf (f : UploadedFile) : Except Exc Payload :=
  match open_image_from_uploaded f with
  | .error e => .error e
  | .ok img => .ok (.pdfDoc [img.mode])

/-- views.py lines 372-386: merge all uploaded images into one PDF with
one page per image (`save_all=True, append_images=rest`). -/
def merge_images_into_single_pdf (files : List UploadedFile) : Except Exc Payload :=
  match openAll files with
  | .error e => .error e
  | .ok [] => .error (.valueError "No images provided")
  | .ok imgs => .ok (.pdfDoc (imgs.map (fun i => i.mode)))

/-- views.py lines 389-398: each image to its own single-page PDF, all
collected as zip entries named `{base}_ezkito.pdf`. -/
def convert_images_to_separate_pdfs_zip :
    List UploadedFile → Except Exc (List (String × Payload))
  | [] => .ok []
  | f :: rest =>
    match single_image_to_pdf f with
    | .error e => .error e
    | .ok p =>
      match convert_images_to_separate_pdfs_zip rest with
      | .error e => .error e
      | .ok es => .ok ((baseOf f.name ++ "_ezkito.pdf", p) :: es)

/-- views.py lines 401-411: one image re-encoded to the target format;
returns the payload, the output name, and the MIME type the code computes. -/
def convert_single_image_to_image (f : UploadedFile) (to_format : String) :
    Except Exc (Payload × String × String) :=
  match open_image_from_uploaded f with
  | .error e => .error e
  | .ok img =>
    .ok (.imageFile to_format img.mode,
         baseOf f.name ++ "_ezkito." ++ to_format,
         "image/" ++ (if to_format = "jpg" then "jpeg" else to_format))

/-- The per-file loop of views.py lines 414-425: each image re-encoded to
the target format as a zip entry `{original_base}_ezkito.{to_format}`. -/
def imagesZipEntries (to_format : String) :
    List UploadedFile → Except Exc (List (String × Payload))
  | [] => .ok []
  | f :: rest =>
    match open_image_from_uploaded f with
    | .error e => .error e
    | .ok img =>
      match imagesZipEntries to_format rest with
      | .error e => .error e
      | .ok es => .ok ((baseOf f.name ++ "_ezkito." ++ to_format,
                        Payload.imageFile to_format img.mode) :: es)

/-- views.py lines 434-441: `tempfile.mkdtemp` allocates a fresh scratch
directory and the uploaded bytes are written into it; the directory is
never removed by this helper or its callers. Returns the directory id. -/
def save_uploaded_to_temp (fs : Fs) : Nat × Fs :=
  (fs.nextId, ⟨fs.nextId + 1, fs.liveDirs ++ [fs.nextId]⟩)

/-- views.py lines 444-476: one office document to PDF via the `soffice`
subprocess (`check=True`): a missing executable raises FileNotFoundError,
a non-zero exit raises CalledProcessError, a run that produces no
`input.pdf` makes the subsequent `open` raise FileNotFoundError; on
success the rendered PDF is returned named `{base}_ezkito.pdf`. -/
def office_single_to_pdf (env : Env) (uploaded : UploadedFile) (fs : Fs) :
    Except Exc (Payload × String) × Fs :=
  let alloc := save_uploaded_to_temp fs
  match env.soffice with
  | .missing => (.error (.fileNotFound "soffice"), alloc.2)
  | .failsNonzero => (.error .calledProcess, alloc.2)
  | .okNoOutput => (.error (.fileNotFound "input.pdf"), alloc.2)
  | .ok => (.ok (.renderedPdf, baseOf uploaded.name ++ "_ezkito.pdf"), alloc.2)

/-- The per-file loop of `_office_files_to_pdf_zip` (views.py lines
479-487): each office document rendered to a PDF zip entry, propagating
the first failure. -/
def officeAll (env : Env) :
    List UploadedFile → Fs → Except Exc (List (String × Payload)) × Fs
  | [], fs => (.ok [], fs)
  | f :: rest, fs =>
    match office_single_to_pdf env f fs with
    | (.error e, fs1) => (.error e, fs1)
    | (.ok pn, fs1) =>
      match officeAll env rest fs1 with
      | (.error e, fs2) => (.error e, fs2)
      | (.ok es, fs2) => (.ok ((pn.2, pn.1) :: es), fs2)

/-- views.py lines 493-511: one text file to PDF via reportlab; raises
RuntimeError when reportlab is not importable, otherwise lays the
permissively decoded lines onto one page. -/
def txt_single_to_pdf (env : Env) (uploaded : UploadedFile) :
    Except Exc (Payload × String) :=
  if env.reportlab = false then .error (.runtimeError "reportlab is not installed.")
  else .ok (.renderedPdf, baseOf uploaded.name ++ "_ezkito.pdf")

/-- The per-file loop of `_txt_files_to_pdf_zip` (views.py lines 514-522). -/
def txtAll (env : Env) :
    List UploadedFile → Except Exc (List (String × Payload))
  | [] => .ok []
  | f :: rest =>
    match txt_single_to_pdf env f with
    | .error e => .error e
    | .ok pn =>
      match txtAll env rest with
      | .error e => .error e
      | .ok es => .ok ((pn.2, pn.1) :: es)

/-- views.py line 536: `convert_from_bytes(pdf_bytes)` — succeeds exactly
on PDF content, returning one page image per page. -/
def convert_from_bytes (f : UploadedFile) : Except Exc (List PILImage) :=
  match f.content with
  | .pdf ms => .ok (ms.map PILImage.mk)
  | _ => .error (.decodeError f.name)

/-- views.py line 538: the `enumerate(pages, start=1)` loop — each page
saved as a zip entry `{doc_base}_page{idx}_ezkito.{to_format}`. -/
def pageEntries (doc_base to_format : String) :
    Nat → List PILImage → List (String × Payload)
  | _, [] => []
  | idx, page :: rest =>
    (doc_base ++ "_page" ++ toString idx ++ "_ezkito." ++ to_format,
     Payload.imageFile to_format page.mode) :: pageEntries doc_base to_format (idx + 1) rest

/-- The per-file loop of `_pdfs_to_images_zip` (views.py lines 533-543). -/
def pdfsAll (to_format : String) :
    List UploadedFile → Except Exc (List (String × Payload))
  | [] => .ok []
  | f :: rest =>
    match convert_from_bytes f with
    | .error e => .error e
    | .ok pages =>
      match pdfsAll to_format rest with
      | .error e => .error e
      | .ok es => .ok (pageEntries (baseOf f.name) to_format 1 pages ++ es)

/-- views.py lines 528-547: every page of every input PDF rasterised into
one zip archive named `{base_name}_images_ezkito.zip`. -/
def pdfs_to_images_zip (env : Env) (to_format base_name : String)
    (files : List UploadedFile) : Except Exc FileResp :=
  if env.pdf2image = false then .error (.runtimeError "pdf2image is not installed.")
  else
    match pdfsAll to_format files with
    | .error e => .error e
    | .ok es => .ok (.zip (base_name ++ "_images_ezkito.zip") es "application/zip")

/-- `with tempfile.TemporaryDirectory(...)`: allocate a fresh scratch
directory, run the body, then delete the directory regardless of whether
the body succeeded or raised. -/
def withTempDir {α : Type} (fs : Fs) (body : Nat → Fs → Except Exc α × Fs) :
    Except Exc α × Fs :=
  let dir := fs.nextId
  let inner := body dir ⟨fs.nextId + 1, fs.liveDirs ++ [dir]⟩
  (inner.1, ⟨inner.2.nextId, inner.2.liveDirs.filter (fun d => d != dir)⟩)

/-- One `subprocess.run(["ffmpeg", ...], check=True)` transcode followed by
reading the output file `out_name`; yields the given payload on success. -/
def ffmpegTranscode (env : Env) (out_name : String) (p : Payload) : Except Exc Payload :=
  match env.ffmpeg with
  | .missing => .error (.fileNotFound "ffmpeg")
  | .failsNonzero => .error .calledProcess
  | .okNoOutput => .error (.fileNotFound out_name)
  | .ok => .ok p

/-- The per-file transcode loop of the multi-file paths (views.py lines
606-620 and 688-713): each input transcoded to a zip entry
`{out_base}_ezkito.{to_format}`, propagating the first failure. -/
def transcodeLoop (env : Env) (to_format : String) (mk : String → Payload) :
    List UploadedFile → Except Exc (List (String × Payload))
  | [] => .ok []
  | f :: rest =>
    let out_name := baseOf f.name ++ "_ezkito." ++ to_format
    match ffmpegTranscode env out_name (mk to_format) with
    | .error e => .error e
    | .ok p =>
      match transcodeLoop env to_format mk rest with
      | .error e => .error e
      | .ok es => .ok ((out_name, p) :: es)

/-- views.py lines 553-562: `_check_ffmpeg_available` raises RuntimeError
when ffmpeg is not on PATH. -/
def check_ffmpeg_available (env : Env) : Except Exc Unit :=
  if env.ffmpeg = ExtTool.missing then
    .error (.runtimeError "ffmpeg is not installed or not found in PATH.")
  else .ok ()

/-- views.py lines 565-629: video to audio. One input yields one audio
file (MIME audio/mpeg for mp3, audio/wav for wav, audio/octet-stream
otherwise); several inputs yield a zip `{base_name}_audio_ezkito.zip`.
Both paths run inside a `TemporaryDirectory` scope. -/
def handle_video_to_audio (env : Env) (files : List UploadedFile)
    (to_format base_name : String) (fs : Fs) : Except Exc FileResp × Fs :=
  match check_ffmpeg_available env with
  | .error e => (.error e, fs)
  | .ok _ =>
    match files with
    | [uploaded] =>
      withTempDir fs (fun _ fs1 =>
        let out_name := baseOf uploaded.name ++ "_ezkito." ++ to_format
        match ffmpegTranscode env out_name (.audioFile to_format) with
        | .error e => (.error e, fs1)
        | .ok p =>
          let mime := if to_format = "mp3" then "audio/mpeg"
            else if to_format = "wav" then "audio/wav"
            else "audio/octet-stream"
          (.ok (.file out_name p mime), fs1))
    | _ =>
      withTempDir fs (fun _ fs1 =>
        match transcodeLoop env to_format Payload.audioFile files with
        | .error e => (.error e, fs1)
        | .ok es =>
          (.ok (.zip (base_name ++ "_audio_ezkito.zip") es "application/zip"), fs1))

/-- views.py lines 632-722: audio to video over a generated solid-color
still background. One input yields one video file (MIME video/mp4);
several inputs yield a zip `{base_name}_video_ezkito.zip`. Both paths run
inside a `TemporaryDirectory` scope. -/
def handle_audio_to_video (env : Env) (files : List UploadedFile)
    (to_format base_name : String) (fs : Fs) : Except Exc FileResp × Fs :=
  match check_ffmpeg_available env with
  | .error e => (.error e, fs)
  | .ok _ =>
    match files with
    | [uploaded] =>
      withTempDir fs (fun _ fs1 =>
        let out_name := baseOf uploaded.name ++ "_ezkito." ++ to_format
        match ffmpegTranscode env out_name (.videoFile to_format) with
        | .error e => (.error e, fs1)
        | .ok p => (.ok (.file out_name p "video/mp4"), fs1))
    | _ =>
      withTempDir fs (fun _ fs1 =>
        match transcodeLoop env to_format Payload.videoFile files with
        | .error e => (.error e, fs1)
        | .ok es =>
          (.ok (.zip (base_name ++ "_video_ezkito.zip") es "application/zip"), fs1))

/-- views.py lines 158-190: the image-to-PDF branch body (inside its try
block). `pdf_mode=separate` with one file yields a bare one-page PDF;
`separate` with several files yields a zip of one-page PDFs; any other
mode merges all inputs into one PDF named `_merged` only when there are
several inputs. -/
def imageToPdfBranch (pdf_mode base_name : String) (files : List UploadedFile) :
    Except Exc FileResp :=
  if pdf_mode = "separate" then
    match files with
    | [f] =>
      match single_image_to_pdf f with
      | .error e => .error e
      | .ok p => .ok (.file (base_name ++ "_ezkito.pdf") p "application/pdf")
    | _ =>
      match convert_images_to_separate_pdfs_zip files with
      | .error e => .error e
      | .ok es => .ok (.zip (base_name ++ "_separated_ezkito.zip") es "application/zip")
  else
    match merge_images_into_single_pdf files with
    | .error e => .error e
    | .ok p =>
      let filename := if files.length > 1 then base_name ++ "_merged_ezkito.pdf"
        else base_name ++ "_ezkito.pdf"
      .ok (.file filename p "application/pdf")

/-- views.py lines 198-215: the image-to-image branch body. One file
yields a bare re-encoded image with the MIME the helper computes; several
files yield a zip `{base_name}_images_ezkito.zip`. -/
def imageToImageBranch (to_format base_name : String) (files : List UploadedFile) :
    Except Exc FileResp :=
  match files with
  | [f] =>
    match convert_single_image_to_image f to_format with
    | .error e => .error e
    | .ok r => .ok (.file r.2.1 r.1 r.2.2)
  | _ =>
    match imagesZipEntries to_format files with
    | .error e => .error e
    | .ok es => .ok (.zip (base_name ++ "_images_ezkito.zip") es "application/zip")

/-- views.py lines 223-240: the document-to-PDF branch body. One file
yields a bare PDF; several files yield a zip `{base_name}_office_ezkito.zip`. -/
def officeBranch (env : Env) (base_name : String) (files : List UploadedFile)
    (fs : Fs) : Except Exc FileResp × Fs :=
  match files with
  | [f] =>
    match office_single_to_pdf env f fs with
    | (.error e, fs1) => (.error e, fs1)
    | (.ok pn, fs1) => (.ok (.file pn.2 pn.1 "application/pdf"), fs1)
  | _ =>
    match officeAll env files fs with
    | (.error e, fs1) => (.error e, fs1)
    | (.ok es, fs1) =>
      (.ok (.zip (base_name ++ "_office_ezkito.zip") es "application/zip"), fs1)

/-- views.py lines 248-265: the TXT-to-PDF branch body. One file yields a
bare PDF; several files yield a zip `{base_name}_txt_ezkito.zip`. -/
def txtBranch (env : Env) (base_name : String) (files : List UploadedFile) :
    Except Exc FileResp :=
  match files with
  | [f] =>
    match txt_single_to_pdf env f with
    | .error e => .error e
    | .ok pn => .ok (.file pn.2 pn.1 "application/pdf")
  | _ =>
    match txtAll env files with
    | .error e => .error e
    | .ok es => .ok (.zip (base_name ++ "_txt_ezkito.zip") es "application/zip")

/-- The `try ... except Exception as e` pattern wrapped around every
branch body: a raised exception becomes the rendered error page
`{branch prefix}{str(e)}`. -/
def wrap (pre : String) : Except Exc FileResp → Outcome
  | .ok r => .resp r
  | .error e => .errorPage (pre ++ e.msg)

/-- views.py line 153: the output base name, taken from the first file. -/
def baseName (files : List UploadedFile) : String :=
  baseOf ((files.headD ⟨"", .blob⟩).name)

/-- views.py lines 158-314: the strategy dispatch chain run after
validation passes, including the pdf2image availability gate of lines
274-276 and the unimplemented-path fallback of line 313. -/
def dispatch (env : Env) (from_format to_format pdf_mode : String)
    (files : List UploadedFile) (fs : Fs) : Outcome × Fs :=
  let base_name := baseName files
  if from_format ∈ IMAGE_FORMATS ∧ to_format = "pdf" then
    (wrap "An error occurred during image to PDF conversion: "
      (imageToPdfBranch pdf_mode base_name files), fs)
  else if from_format ∈ IMAGE_FORMATS ∧ to_format ∈ IMAGE_FORMATS then
    (wrap "An error occurred during image to image conversion: "
      (imageToImageBranch to_format base_name files), fs)
  else if from_format ∈ DOC_FORMATS ∧ to_format = "pdf" then
    let r := officeBranch env base_name files fs
    (wrap "An error occurred during document to PDF conversion: " r.1, r.2)
  else if from_format = "txt" ∧ to_format = "pdf" then
    (wrap "An error occurred during TXT to PDF conversion: "
      (txtBranch env base_name files), fs)
  else if from_format = "pdf" ∧ to_format ∈ IMAGE_FORMATS then
    if env.pdf2image = false then
      (.errorPage "pdf2image is not installed. Please install it to use PDF to image conversion.", fs)
    else
      (wrap "An error occurred during PDF to image conversion: "
        (pdfs_to_images_zip env to_format base_name files), fs)
  else if from_format ∈ VIDEO_FORMATS ∧ to_format ∈ AUDIO_FORMATS then
    let r := handle_video_to_audio env files to_format base_name fs
    (wrap "An error occurred during video to audio conversion: " r.1, r.2)
  else if from_format ∈ AUDIO_FORMATS ∧ to_format ∈ VIDEO_FORMATS then
    let r := handle_audio_to_video env files to_format base_name fs
    (wrap "An error occurred during audio to video conversion: " r.1, r.2)
  else
    (.errorPage "This conversion path is not implemented yet.", fs)

/-- views.py lines 113-314: the whole POST handler — validation (lines
117-150) followed by strategy dispatch. The format fields are the
lower-cased POST fields of lines 101-102. -/
def file_converter (env : Env) (from_format to_format pdf_mode : String)
    (files : List UploadedFile) (fs : Fs) : Outcome × Fs :=
  match validate from_format to_format files with
  | some err => (.errorPage err.message, fs)
  | none => dispatch env from_format to_format pdf_mode files fs

/-- The supported set as the claim reads the spec (section 8): the full
image cross product including self-pairs, images and documents to PDF,
PDF to images, the full video-times-audio-target cross product
`(mp4,mov,avi,mkv) to (mp3,wav)`, and audio to mp4. This definition
follows the spec words, for comparison against `ALLOWED_CONVERSIONS`. -/
def spec_supported_pairs : List (String × String) :=
  [ ("png", "png"), ("png", "jpg"), ("png", "jpeg"),
    ("jpg", "png"), ("jpg", "jpg"), ("jpg", "jpeg"),
    ("jpeg", "png"), ("jpeg", "jpg"), ("jpeg", "jpeg"),
    ("png", "pdf"), ("jpg", "pdf"), ("jpeg", "pdf"),
    ("docx", "pdf"), ("pptx", "pdf"), ("xlsx", "pdf"), ("txt", "pdf"),
    ("pdf", "png"), ("pdf", "jpg"), ("pdf", "jpeg"),
    ("mp4", "mp3"), ("mp4", "wav"), ("mov", "mp3"), ("mov", "wav"),
    ("avi", "mp3"), ("avi", "wav"), ("mkv", "mp3"), ("mkv", "wav"),
    ("mp3", "mp4"), ("wav", "mp4"), ("m4a", "mp4"), ("aac", "mp4"),
    ("ogg", "mp4") ]

/-- The content-type mapping the spec claims for single-file outcomes:
image/png, image/jpeg, application/pdf, audio/mpeg for mp3, audio/wav for
wav, video/mp4, and a generic octet-stream fallback for unmapped formats.
This definition follows the spec words, for comparison against the
content types the code attaches. -/
def claimedMime : Payload → String
  | .pdfDoc _ => "application/pdf"
  | .renderedPdf => "application/pdf"
  | .imageFile f _ =>
      if f = "png" then "image/png"
      else if f = "jpg" ∨ f = "jpeg" then "image/jpeg"
      else "application/octet-stream"
  | .audioFile f =>
      if f = "mp3" then "audio/mpeg"
      else if f = "wav" then "audio/wav"
      else "application/octet-stream"
  | .videoFile f =>
      if f = "mp4" then "video/mp4"
      else "application/octet-stream"

/-- A response carries the claimed content type: archives always
application/zip, single files the format-specific MIME of `claimedMime`. -/
def FileResp.mimeOk : FileResp → Prop
  | .file _ p ct => ct = claimedMime p
  | .zip _ _ ct => ct = "application/zip"

/-- Content-type consistency of a whole outcome (error pages carry none). -/
def mimeConsistent : Outcome → Prop
  | .resp r => r.mimeOk
  | .errorPage _ => True

/-- The seven per-branch error prefixes of views.py lines 192, 217, 242,
267, 287, 297 and 307. -/
def branchPrefixes : List String :=
  [ "An error occurred during image to PDF conversion: ",
    "An error occurred during image to image conversion: ",
    "An error occurred during document to PDF conversion: ",
    "An error occurred during TXT to PDF conversion: ",
    "An error occurred during PDF to image conversion: ",
    "An error occurred during video to audio conversion: ",
    "An error occurred during audio to video conversion: " ]

/-- Every user-facing error message the POST handler can render: a
validation message, a caught strategy exception behind one of the seven
branch prefixes, the pdf2image availability message, or the
unimplemented-path fallback. -/
def knownErrorMessage (m : String) : Prop :=
  (∃ e : ValidationError, m = e.message) ∨
  (∃ pre ∈ branchPrefixes, ∃ e : Exc, m = pre ++ e.msg) ∨
  m = "pdf2image is not installed. Please install it to use PDF to image conversion." ∨
  m = "This conversion path is not implemented yet."

/-- An outcome is a well-formed response: a file response, or an error
page whose message is one of the handler's own user-facing messages. -/
def Outcome.wellFormed : Outcome → Prop
  | .resp _ => True
  | .errorPage m => knownErrorMessage m

/-- A payload carries no non-RGB pixel data: Pillow-written PDF pages and
re-encoded images are all in RGB mode. -/
def Payload.rgbOnly : Payload → Prop
  | .pdfDoc ms => ∀ m ∈ ms, m = "RGB"
  | .imageFile _ mo => mo = "RGB"
  | _ => True

def FileResp.rgbOnly : FileResp → Prop
  | .file _ p _ => p.rgbOnly
  | .zip _ es _ => ∀ e ∈ es, Payload.rgbOnly e.2

def Outcome.rgbOnly : Outcome → Prop
  | .resp r => r.rgbOnly
  | .errorPage _ => True

/-- The zip entries the PDF-to-image strategy produces: for each input
document in order, one entry per page with indices starting at 1. -/
def allPageEntries (to_format : String) : List UploadedFile → List (String × Payload)
  | [] => []
  | f :: rest =>
    pageEntries (baseOf f.name) to_format 1 (f.pageModes.map PILImage.mk) ++
      allPageEntries to_format rest

theorem allowed_ne_empty : ∀ p ∈ ALLOWED_CONVERSIONS, p.1 ≠ "" ∧ p.2 ≠ "" := by decide

theorem validate_none_facts {s t : String} {files : List UploadedFile}
    (h : validate s t files = none) :
    (s, t) ∈ ALLOWED_CONVERSIONS ∧ files ≠ [] := by
  unfold validate at h
  split_ifs at h
  all_goals simp_all

/-- C1. Corrected: the spec-words supported set (with image self-pairs and
the full video-to-audio cross product) differs from the code's literal
`ALLOWED_CONVERSIONS`: jpg to jpg is in the former but the code rejects it
as an unsupported conversion. -/
theorem c1_counterexample :
    ("jpg", "jpg") ∈ spec_supported_pairs ∧
    ("jpg", "jpg") ∉ ALLOWED_CONVERSIONS ∧
    ("mov", "wav") ∈ spec_supported_pairs ∧
    ("mov", "wav") ∉ ALLOWED_CONVERSIONS ∧
    validate "jpg" "jpg" [⟨"a.jpg", .image "RGB"⟩] =
      some (.unsupportedConversion "jpg" "jpg") := by decide

/-- C1 (amended). For nonempty source and target formats, validation
rejects with the UnsupportedConversion error naming both formats exactly
when the pair is outside the code's literal `ALLOWED_CONVERSIONS` set
(which has no image self-pairs, and maps only mp4 — not mov, avi, mkv —
to wav). -/
theorem c1_unsupported_iff (s t : String) (files : List UploadedFile)
    (hs : s ≠ "") (ht : t ≠ "") :
    validate s t files = some (.unsupportedConversion s t) ↔
      (s, t) ∉ ALLOWED_CONVERSIONS := by
  unfold validate
  rw [if_neg (fun hc => hs hc.1), if_neg hs, if_neg ht]
  by_cases hmem : (s, t) ∈ ALLOWED_CONVERSIONS
  · rw [if_pos hmem]
    simp only [hmem, not_true_eq_false, iff_false]
    split_ifs <;> simp
  · rw [if_neg hmem]
    simp [hmem]

theorem c1_unsupported_iff_witness :
    validate "mp4" "mkv" [] = some (.unsupportedConversion "mp4" "mkv") ↔
      ("mp4", "mkv") ∉ ALLOWED_CONVERSIONS :=
  c1_unsupported_iff "mp4" "mkv" [] (by decide) (by decide)

/-- C2. Corrected: an empty-file request whose (source, target) pair is
not in the capability matrix is rejected with the UnsupportedConversion
error, not the no-files error — the pair check of views.py line 128 runs
before the file check of line 133. -/
theorem c2_counterexample :
    validate "mp4" "mkv" [] = some (.unsupportedConversion "mp4" "mkv") ∧
    validate "mp4" "mkv" [] ≠ some ValidationError.noFiles := by decide

/-- C2 (amended). A request with zero files whose formats are present and
whose (source, target) pair is in the capability matrix fails with the
no-files error, rendered as the message of views.py line 134. -/
theorem c2_no_files (s t : String) (hmem : (s, t) ∈ ALLOWED_CONVERSIONS) :
    validate s t [] = some ValidationError.noFiles ∧
      ValidationError.message .noFiles = "Please upload at least one file." := by
  obtain ⟨hs, ht⟩ := allowed_ne_empty _ hmem
  refine ⟨?_, rfl⟩
  unfold validate
  rw [if_neg (fun hc => hs hc.1), if_neg hs, if_neg ht, if_pos hmem, if_pos rfl]

theorem c2_no_files_witness :
    validate "png" "pdf" [] = some ValidationError.noFiles ∧
      ValidationError.message .noFiles = "Please upload at least one file." :=
  c2_no_files "png" "pdf" (by decide)

/-- C3. Confirmed: when the pair is supported and files are present, the
extension check does not short-circuit — whenever any file is invalid
(`invalidExt`: no dot in the name, or lower-cased text after the final dot
differing from the source format), validation fails with one
ExtensionMismatch error whose name list is exactly the offending files,
in input order (an order-preserving filter of the input list). -/
theorem c3_extension_mismatch (s t : String) (files : List UploadedFile)
    (hmem : (s, t) ∈ ALLOWED_CONVERSIONS) (hne : files ≠ [])
    (hbad : files.filter (fun f => invalidExt s f.name) ≠ []) :
    validate s t files = some (.extensionMismatch s
      ((files.filter (fun f => invalidExt s f.name)).map (fun f => f.name))) := by
  obtain ⟨hs, ht⟩ := allowed_ne_empty _ hmem
  unfold validate
  rw [if_neg (fun hc => hs hc.1), if_neg hs, if_neg ht, if_pos hmem, if_neg hne,
    if_neg hbad]

theorem open_image_isImage {f : UploadedFile} (h : f.content.isImage = true) :
    open_image_from_uploaded f = .ok ⟨"RGB"⟩ := by
  cases hc : f.content with
  | image m =>
    by_cases hm : m = "RGB" <;>
      simp [open_image_from_uploaded, Image_open, hc, hm]
  | pdf ms => simp [FileContent.isImage, hc] at h
  | blob => simp [FileContent.isImage, hc] at h

theorem open_image_mode {f : UploadedFile} {img : PILImage}
    (h : open_image_from_uploaded f = .ok img) : img = ⟨"RGB"⟩ := by
  cases hc : f.content with
  | image m =>
    simp [open_image_from_uploaded, Image_open, hc] at h
    by_cases hm : m = "RGB"
    · subst hm; simp at h; exact h.symm
    · simp [hm] at h; exact h.symm
  | pdf ms => simp [open_image_from_uploaded, Image_open, hc] at h
  | blob => simp [open_image_from_uploaded, Image_open, hc] at h

theorem openAll_isImage {files : List UploadedFile}
    (h : ∀ f ∈ files, f.content.isImage = true) :
    openAll files = .ok (List.replicate files.length ⟨"RGB"⟩) := by
  induction files with
  | nil => rfl
  | cons f rest ih =>
    have hf := h f (List.mem_cons_self f rest)
    have hr := ih (fun g hg => h g (List.mem_cons_of_mem _ hg))
    simp [openAll, open_image_isImage hf, hr, List.replicate_succ]

theorem sep_zip_isImage {files : List UploadedFile}
    (h : ∀ f ∈ files, f.content.isImage = true) :
    convert_images_to_separate_pdfs_zip files =
      .ok (files.map (fun f => (baseOf f.name ++ "_ezkito.pdf", Payload.pdfDoc ["RGB"]))) := by
  induction files with
  | nil => rfl
  | cons f rest ih =>
    have hf := h f (List.mem_cons_self f rest)
    have hr := ih (fun g hg => h g (List.mem_cons_of_mem _ hg))
    simp [convert_images_to_separate_pdfs_zip, single_image_to_pdf,
      open_image_isImage hf, hr]

theorem merge_isImage {files : List UploadedFile} (hne : files ≠ [])
    (h : ∀ f ∈ files, f.content.isImage = true) :
    merge_images_into_single_pdf files =
      .ok (.pdfDoc (List.replicate files.length "RGB")) := by
  unfold merge_images_into_single_pdf
  rw [openAll_isImage h]
  cases files with
  | nil => exact absurd rfl hne
  | cons f rest =>
    simp [List.replicate_succ, List.map_replicate]

/-- C4. Confirmed: for image-to-PDF requests that pass validation, one
input yields one bare Pillow-written PDF with one page — under any
`pdf_mode`, so also under `separate`; several inputs under merge mode
yield one bare PDF with one page per input; several inputs under separate
mode yield a zip archive with exactly one single-page PDF entry per input,
in input order. -/
theorem c4_image_to_pdf (env : Env) (fs : Fs) (s pdf_mode : String)
    (files : List UploadedFile) (hs : s ∈ IMAGE_FORMATS)
    (hval : validate s "pdf" files = none)
    (himg : ∀ f ∈ files, f.content.isImage = true) :
    (files.length = 1 →
      file_converter env s "pdf" pdf_mode files fs =
        (.resp (.file (baseName files ++ "_ezkito.pdf")
          (.pdfDoc ["RGB"]) "application/pdf"), fs)) ∧
    (1 < files.length → pdf_mode = "merge" →
      file_converter env s "pdf" pdf_mode files fs =
        (.resp (.file (baseName files ++ "_merged_ezkito.pdf")
          (.pdfDoc (List.replicate files.length "RGB")) "application/pdf"), fs)) ∧
    (1 < files.length → pdf_mode = "separate" →
      file_converter env s "pdf" pdf_mode files fs =
        (.resp (.zip (baseName files ++ "_separated_ezkito.zip")
          (files.map (fun f => (baseOf f.name ++ "_ezkito.pdf", Payload.pdfDoc ["RGB"])))
          "application/zip"), fs)) := by
  have hne : files ≠ [] := (validate_none_facts hval).2
  have hdisp : file_converter env s "pdf" pdf_mode files fs =
      (wrap "An error occurred during image to PDF conversion: "
        (imageToPdfBranch pdf_mode (baseName files) files), fs) := by
    simp only [file_converter, hval]
    unfold dispatch
    rw [if_pos ⟨hs, rfl⟩]
  refine ⟨?_, ?_, ?_⟩
  · intro hlen
    obtain ⟨f, hf⟩ := List.length_eq_one.mp hlen
    subst hf
    have hfi := himg f (List.mem_cons_self f [])
    rw [hdisp]
    by_cases hm : pdf_mode = "separate"
    · simp [imageToPdfBranch, hm, single_image_to_pdf, open_image_isImage hfi, wrap]
    · rw [imageToPdfBranch, if_neg hm,
        merge_isImage (by simp) (by simpa using himg)]
      simp [wrap]
  · intro hlen hm
    rw [hdisp, imageToPdfBranch, if_neg (by rw [hm]; decide),
      merge_isImage hne himg]
    · simp [wrap, hlen]
    · intro u hu
      rw [hu] at hlen
      simp at hlen
  · intro hlen hm
    rw [hdisp, imageToPdfBranch, if_pos hm]
    · rw [sep_zip_isImage himg]
      simp [wrap]
    · intro u hu
      rw [hu] at hlen
      simp at hlen

theorem c4_image_to_pdf_witness :
    file_converter ⟨true, true, .ok, .ok⟩ "png" "pdf" "separate"
      [⟨"a.png", .image "RGBA"⟩, ⟨"b.png", .image "RGB"⟩] ⟨0, []⟩ =
    (.resp (.zip (baseName [⟨"a.png", .image "RGBA"⟩, ⟨"b.png", .image "RGB"⟩]
        ++ "_separated_ezkito.zip")
      ([⟨"a.png", .image "RGBA"⟩, (⟨"b.png", .image "RGB"⟩ : UploadedFile)].map
        (fun f => (baseOf f.name ++ "_ezkito.pdf", Payload.pdfDoc ["RGB"])))
      "application/zip"), ⟨0, []⟩) :=
  (c4_image_to_pdf ⟨true, true, .ok, .ok⟩ ⟨0, []⟩ "png" "separate"
    [⟨"a.png", .image "RGBA"⟩, ⟨"b.png", .image "RGB"⟩]
    (by decide) (by decide) (by decide)).2.2 (by decide) rfl

theorem c3_extension_mismatch_witness :
    validate "png" "pdf"
      [⟨"a.png", .image "RGB"⟩, ⟨"b.txt", .blob⟩, ⟨"noext", .blob⟩] =
    some (.extensionMismatch "png"
      (([⟨"a.png", .image "RGB"⟩, ⟨"b.txt", .blob⟩,
         (⟨"noext", .blob⟩ : UploadedFile)].filter
           (fun f => invalidExt "png" f.name)).map (fun f => f.name))) :=
  c3_extension_mismatch "png" "pdf" _ (by decide) (by decide) (by decide)

theorem pageEntries_length (b t : String) (k : Nat) (pages : List PILImage) :
    (pageEntries b t k pages).length = pages.length := by
  induction pages generalizing k with
  | nil => rfl
  | cons p rest ih => simp [pageEntries, ih]

theorem allPageEntries_length (t : String) (files : List UploadedFile) :
    (allPageEntries t files).length = (files.map (fun f => f.pageModes.length)).sum := by
  induction files with
  | nil => rfl
  | cons f rest ih => simp [allPageEntries, pageEntries_length, ih]

theorem pdfsAll_isPdf {t : String} {files : List UploadedFile}
    (h : ∀ f ∈ files, f.content.isPdf = true) :
    pdfsAll t files = .ok (allPageEntries t files) := by
  induction files with
  | nil => rfl
  | cons f rest ih =>
    have hf := h f (List.mem_cons_self f rest)
    have hr := ih (fun g hg => h g (List.mem_cons_of_mem _ hg))
    cases hc : f.content with
    | image m => simp [FileContent.isPdf, hc] at hf
    | blob => simp [FileContent.isPdf, hc] at hf
    | pdf ms =>
      simp [pdfsAll, convert_from_bytes, hc, hr, allPageEntries,
        UploadedFile.pageModes]

/-- C5. Confirmed: for every pdf-to-image request that passes validation
(with pdf2image installed), the response is a zip archive even for a
single input; its entries are, for each input document in order, one image
per page, named `{doc_base}_page{idx}_ezkito.{fmt}` with the page index
starting at 1 (see `pageEntries`); the entry count is the total page
count of the inputs. -/
theorem c5_pdf_to_images (env : Env) (fs : Fs) (t pdf_mode : String)
    (files : List UploadedFile) (ht : t ∈ IMAGE_FORMATS)
    (hval : validate "pdf" t files = none)
    (henv : env.pdf2image = true)
    (hpdf : ∀ f ∈ files, f.content.isPdf = true) :
    file_converter env "pdf" t pdf_mode files fs =
      (.resp (.zip (baseName files ++ "_images_ezkito.zip")
        (allPageEntries t files) "application/zip"), fs) ∧
    (allPageEntries t files).length = (files.map (fun f => f.pageModes.length)).sum := by
  refine ⟨?_, allPageEntries_length t files⟩
  simp only [file_converter, hval]
  unfold dispatch
  rw [if_neg (fun hc => absurd hc.1 (by decide)),
    if_neg (fun hc => absurd hc.1 (by decide)),
    if_neg (fun hc => absurd hc.1 (by decide)),
    if_neg (fun hc => absurd hc.1 (by decide)),
    if_pos ⟨rfl, ht⟩,
    if_neg (by rw [henv]; simp)]
  rw [pdfs_to_images_zip, if_neg (by rw [henv]; simp), pdfsAll_isPdf hpdf]
  simp [wrap]

theorem c5_pdf_to_images_witness :
    file_converter ⟨true, true, .ok, .ok⟩ "pdf" "png" "merge"
      [⟨"d.pdf", .pdf ["RGB", "RGB"]⟩] ⟨0, []⟩ =
      (.resp (.zip (baseName [⟨"d.pdf", .pdf ["RGB", "RGB"]⟩] ++ "_images_ezkito.zip")
        (allPageEntries "png" [⟨"d.pdf", .pdf ["RGB", "RGB"]⟩]) "application/zip"), ⟨0, []⟩) ∧
    (allPageEntries "png" [⟨"d.pdf", .pdf ["RGB", "RGB"]⟩]).length =
      ([(⟨"d.pdf", .pdf ["RGB", "RGB"]⟩ : UploadedFile)].map
        (fun f => f.pageModes.length)).sum :=
  c5_pdf_to_images ⟨true, true, .ok, .ok⟩ ⟨0, []⟩ "png" "merge"
    [⟨"d.pdf", .pdf ["RGB", "RGB"]⟩] (by decide) (by decide) rfl (by decide)

/-- C6. Code bug: the document-to-PDF strategy allocates its scratch
directory with `tempfile.mkdtemp` (views.py line 436) and never deletes
it — after a successful docx-to-pdf conversion, and equally after a failed
renderer run, the scratch directory (id 0 here) is still alive. The
ffmpeg strategies, by contrast, use `tempfile.TemporaryDirectory` and
leave no scratch directory behind (last conjunct). -/
theorem c6_office_scratch_leak :
    file_converter ⟨true, true, .ok, .ok⟩ "docx" "pdf" "merge"
      [⟨"a.docx", .blob⟩] ⟨0, []⟩ =
      (.resp (.file "a_ezkito.pdf" .renderedPdf "application/pdf"), ⟨1, [0]⟩) ∧
    (file_converter ⟨true, true, .failsNonzero, .ok⟩ "docx" "pdf" "merge"
      [⟨"a.docx", .blob⟩] ⟨0, []⟩).2 = ⟨1, [0]⟩ ∧
    Fs.liveDirs ⟨1, [0]⟩ ≠ [] ∧
    (file_converter ⟨true, true, .ok, .ok⟩ "mp4" "mp3" "merge"
      [⟨"v.mp4", .blob⟩] ⟨0, []⟩).2 = ⟨1, []⟩ := by decide

theorem officeBranch_missing {env : Env} (hs : env.soffice = .missing)
    {b : String} {files : List UploadedFile} {fs : Fs} (hne : files ≠ []) :
    (officeBranch env b files fs).1 = .error (.fileNotFound "soffice") := by
  cases files with
  | nil => exact absurd rfl hne
  | cons f rest =>
    cases rest with
    | nil => simp [officeBranch, office_single_to_pdf, hs]
    | cons g rest2 =>
      simp [officeBranch, officeAll, office_single_to_pdf, hs]

theorem officeBranch_fails {env : Env} (hs : env.soffice = .failsNonzero)
    {b : String} {files : List UploadedFile} {fs : Fs} (hne : files ≠ []) :
    (officeBranch env b files fs).1 = .error .calledProcess := by
  cases files with
  | nil => exact absurd rfl hne
  | cons f rest =>
    cases rest with
    | nil => simp [officeBranch, office_single_to_pdf, hs]
    | cons g rest2 =>
      simp [officeBranch, officeAll, office_single_to_pdf, hs]

/-- C7. Confirmed: for validated document-to-PDF requests, a missing
`soffice` executable (FileNotFoundError) and a renderer that runs but
exits non-zero (CalledProcessError) surface as two different user-facing
error messages — the interpolated `str(e)` distinguishes the tool-missing
cause from the conversion-failed cause. -/
theorem c7_distinct_errors (env : Env) (fs1 fs2 : Fs) (pdf_mode : String)
    (files : List UploadedFile) (hval : validate "docx" "pdf" files = none) :
    (file_converter {env with soffice := .missing} "docx" "pdf" pdf_mode files fs1).1 =
      .errorPage ("An error occurred during document to PDF conversion: " ++
        Exc.msg (.fileNotFound "soffice")) ∧
    (file_converter {env with soffice := .failsNonzero} "docx" "pdf" pdf_mode files fs2).1 =
      .errorPage ("An error occurred during document to PDF conversion: " ++
        Exc.msg .calledProcess) ∧
    (file_converter {env with soffice := .missing} "docx" "pdf" pdf_mode files fs1).1 ≠
      (file_converter {env with soffice := .failsNonzero} "docx" "pdf" pdf_mode files fs2).1 := by
  have hne : files ≠ [] := (validate_none_facts hval).2
  have hred : ∀ (env2 : Env) (gs : Fs),
      (file_converter env2 "docx" "pdf" pdf_mode files gs).1 =
        wrap "An error occurred during document to PDF conversion: "
          (officeBranch env2 (baseName files) files gs).1 := by
    intro env2 gs
    simp only [file_converter, hval]
    unfold dispatch
    rw [if_neg (fun hc => absurd hc.1 (by decide)),
      if_neg (fun hc => absurd hc.1 (by decide)),
      if_pos ⟨(by decide), rfl⟩]
  have h1 : (file_converter {env with soffice := .missing} "docx" "pdf" pdf_mode files fs1).1 =
      .errorPage ("An error occurred during document to PDF conversion: " ++
        Exc.msg (.fileNotFound "soffice")) := by
    rw [hred, officeBranch_missing rfl hne]
    rfl
  have h2 : (file_converter {env with soffice := .failsNonzero} "docx" "pdf" pdf_mode files fs2).1 =
      .errorPage ("An error occurred during document to PDF conversion: " ++
        Exc.msg .calledProcess) := by
    rw [hred, officeBranch_fails rfl hne]
    rfl
  refine ⟨h1, h2, ?_⟩
  rw [h1, h2]
  decide

theorem c7_distinct_errors_witness :
    (file_converter {(⟨true, true, .ok, .ok⟩ : Env) with soffice := .missing}
      "docx" "pdf" "merge" [⟨"a.docx", .blob⟩] ⟨0, []⟩).1 =
      .errorPage ("An error occurred during document to PDF conversion: " ++
        Exc.msg (.fileNotFound "soffice")) ∧
    (file_converter {(⟨true, true, .ok, .ok⟩ : Env) with soffice := .failsNonzero}
      "docx" "pdf" "merge" [⟨"a.docx", .blob⟩] ⟨0, []⟩).1 =
      .errorPage ("An error occurred during document to PDF conversion: " ++
        Exc.msg .calledProcess) ∧
    (file_converter {(⟨true, true, .ok, .ok⟩ : Env) with soffice := .missing}
      "docx" "pdf" "merge" [⟨"a.docx", .blob⟩] ⟨0, []⟩).1 ≠
    (file_converter {(⟨true, true, .ok, .ok⟩ : Env) with soffice := .failsNonzero}
      "docx" "pdf" "merge" [⟨"a.docx", .blob⟩] ⟨0, []⟩).1 :=
  c7_distinct_errors ⟨true, true, .ok, .ok⟩ ⟨0, []⟩ ⟨0, []⟩ "merge"
    [⟨"a.docx", .blob⟩] (by decide)

theorem wrap_wellFormed {pre : String} (hpre : pre ∈ branchPrefixes)
    (r : Except Exc FileResp) : (wrap pre r).wellFormed := by
  cases r with
  | ok o => trivial
  | error e => exact Or.inr (Or.inl ⟨pre, hpre, e, rfl⟩)

theorem dispatch_wellFormed (env : Env) (from_format to_format pdf_mode : String)
    (files : List UploadedFile) (fs : Fs) :
    ((dispatch env from_format to_format pdf_mode files fs).1).wellFormed := by
  unfold dispatch
  split
  · exact wrap_wellFormed (by decide) _
  split
  · exact wrap_wellFormed (by decide) _
  split
  · exact wrap_wellFormed (by decide) _
  split
  · exact wrap_wellFormed (by decide) _
  split
  · split
    · exact Or.inr (Or.inr (Or.inl rfl))
    · exact wrap_wellFormed (by decide) _
  split
  · exact wrap_wellFormed (by decide) _
  split
  · exact wrap_wellFormed (by decide) _
  exact Or.inr (Or.inr (Or.inr rfl))

/-- C8. Confirmed: the POST handler is total over every request and every
environment (missing libraries, missing or failing external tools,
undecodable content): the outcome is always either a `FileResponse` or a
rendered error page whose message is one of the handler's own user-facing
messages — a validation message, a caught strategy exception behind one of
the seven branch prefixes, the pdf2image availability message, or the
unimplemented-path fallback. No input propagates an exception out of the
handler. -/
theorem c8_total_response (env : Env) (fs : Fs)
    (from_format to_format pdf_mode : String) (files : List UploadedFile) :
    ((file_converter env from_format to_format pdf_mode files fs).1).wellFormed := by
  cases hv : validate from_format to_format files with
  | some e =>
    simp only [file_converter, hv]
    exact Or.inl ⟨e, rfl⟩
  | none =>
    simp only [file_converter, hv]
    exact dispatch_wellFormed env from_format to_format pdf_mode files fs

theorem single_image_to_pdf_ok {f : UploadedFile} {p : Payload}
    (h : single_image_to_pdf f = .ok p) : p = .pdfDoc ["RGB"] := by
  unfold single_image_to_pdf at h
  split at h
  · simp at h
  · rename_i img heq
    cases open_image_mode heq
    simp at h
    exact h.symm

theorem openAll_modes {files : List UploadedFile} {imgs : List PILImage}
    (h : openAll files = .ok imgs) : ∀ i ∈ imgs, i = ⟨"RGB"⟩ := by
  induction files generalizing imgs with
  | nil =>
    have he : imgs = [] := by simpa [openAll] using h.symm
    subst he
    simp
  | cons f rest ih =>
    unfold openAll at h
    split at h
    · simp at h
    · rename_i img heq
      split at h
      · simp at h
      · rename_i imgs2 heq2
        simp at h
        intro i hi
        rcases List.mem_cons.mp (h ▸ hi) with hi1 | hi2
        · exact hi1 ▸ open_image_mode heq
        · exact ih heq2 i hi2

theorem merge_shape {files : List UploadedFile} {p : Payload}
    (h : merge_images_into_single_pdf files = .ok p) :
    ∃ ms, p = .pdfDoc ms ∧ ∀ m ∈ ms, m = "RGB" := by
  unfold merge_images_into_single_pdf at h
  split at h
  · simp at h
  · simp at h
  · rename_i imgs hnil heq
    simp at h
    refine ⟨imgs.map (fun i => i.mode), h.symm, ?_⟩
    intro m hm
    obtain ⟨i, hi, rfl⟩ := List.mem_map.mp hm
    rw [openAll_modes heq i hi]

theorem sep_zip_ok {files : List UploadedFile} {es : List (String × Payload)}
    (h : convert_images_to_separate_pdfs_zip files = .ok es) :
    ∀ e ∈ es, e.2 = Payload.pdfDoc ["RGB"] := by
  induction files generalizing es with
  | nil =>
    have he : es = [] := by simpa [convert_images_to_separate_pdfs_zip] using h.symm
    subst he
    simp
  | cons f rest ih =>
    unfold convert_images_to_separate_pdfs_zip at h
    split at h
    · simp at h
    · rename_i p heq
      split at h
      · simp at h
      · rename_i es2 heq2
        simp at h
        intro e he
        rcases List.mem_cons.mp (h ▸ he) with he1 | he2
        · rw [he1]
          exact single_image_to_pdf_ok heq
        · exact ih heq2 e he2

theorem convert_single_shape {f : UploadedFile} {t : String}
    {r0 : Payload × String × String}
    (h : convert_single_image_to_image f t = .ok r0) :
    r0 = (Payload.imageFile t "RGB", baseOf f.name ++ "_ezkito." ++ t,
      "image/" ++ (if t = "jpg" then "jpeg" else t)) := by
  unfold convert_single_image_to_image at h
  split at h
  · simp at h
  · rename_i img heq
    cases open_image_mode heq
    simp at h
    exact h.symm

theorem imagesZipEntries_ok {t : String} {files : List UploadedFile}
    {es : List (String × Payload)} (h : imagesZipEntries t files = .ok es) :
    ∀ e ∈ es, e.2 = Payload.imageFile t "RGB" := by
  induction files generalizing es with
  | nil =>
    have he : es = [] := by simpa [imagesZipEntries] using h.symm
    subst he
    simp
  | cons f rest ih =>
    unfold imagesZipEntries at h
    split at h
    · simp at h
    · rename_i img heq
      split at h
      · simp at h
      · rename_i es2 heq2
        simp at h
        intro e he
        rcases List.mem_cons.mp (h ▸ he) with he1 | he2
        · cases open_image_mode heq
          rw [he1]
        · exact ih heq2 e he2

theorem office_single_ok {env : Env} {u : UploadedFile} {fs fs1 : Fs}
    {pn : Payload × String}
    (h : office_single_to_pdf env u fs = (.ok pn, fs1)) :
    pn.1 = Payload.renderedPdf := by
  unfold office_single_to_pdf at h
  cases hs : env.soffice <;> simp [hs] at h
  rw [← h.1]

theorem txt_single_ok {env : Env} {u : UploadedFile} {pn : Payload × String}
    (h : txt_single_to_pdf env u = .ok pn) : pn.1 = Payload.renderedPdf := by
  unfold txt_single_to_pdf at h
  split at h
  · simp at h
  · simp at h
    rw [← h]

theorem transcode_ok {env : Env} {o : String} {p q : Payload}
    (h : ffmpegTranscode env o p = .ok q) : q = p := by
  unfold ffmpegTranscode at h
  cases hs : env.ffmpeg <;> simp [hs] at h
  exact h.symm

theorem allowed_video_targets :
    ∀ p ∈ ALLOWED_CONVERSIONS, p.1 ∈ VIDEO_FORMATS → p.2 = "mp3" ∨ p.2 = "wav" := by
  decide

theorem allowed_audio_targets :
    ∀ p ∈ ALLOWED_CONVERSIONS, p.1 ∈ AUDIO_FORMATS → p.2 = "mp4" := by
  decide

theorem wrap_mime {pre : String} {x : Except Exc FileResp}
    (h : ∀ r, x = .ok r → r.mimeOk) : mimeConsistent (wrap pre x) := by
  cases x with
  | ok o => exact h o rfl
  | error e => trivial

theorem imageToPdfBranch_mime {pdf_mode b : String} {files : List UploadedFile}
    {r : FileResp} (h : imageToPdfBranch pdf_mode b files = .ok r) : r.mimeOk := by
  unfold imageToPdfBranch at h
  split at h
  · split at h
    · split at h
      · simp at h
      · rename_i p heq
        simp at h
        cases single_image_to_pdf_ok heq
        simp [← h, FileResp.mimeOk, claimedMime]
    · split at h
      · simp at h
      · rename_i es heq
        simp at h
        simp [← h, FileResp.mimeOk]
  · split at h
    · simp at h
    · rename_i p heq
      simp at h
      obtain ⟨ms, rfl, hms⟩ := merge_shape heq
      simp [← h, FileResp.mimeOk, claimedMime]

theorem imageToImageBranch_mime {t b : String} {files : List UploadedFile}
    {r : FileResp} (ht : t ∈ IMAGE_FORMATS)
    (h : imageToImageBranch t b files = .ok r) : r.mimeOk := by
  unfold imageToImageBranch at h
  split at h
  · split at h
    · simp at h
    · rename_i r0 heq
      simp at h
      cases convert_single_shape heq
      have h3 : t = "png" ∨ t = "jpg" ∨ t = "jpeg" := by
        simpa [IMAGE_FORMATS] using ht
      rcases h3 with h1 | h1 | h1 <;> subst h1 <;>
        simp [← h, FileResp.mimeOk, claimedMime]
  · split at h
    · simp at h
    · rename_i es heq
      simp at h
      simp [← h, FileResp.mimeOk]

theorem officeBranch_mime {env : Env} {b : String} {files : List UploadedFile}
    {fs : Fs} {r : FileResp}
    (h : (officeBranch env b files fs).1 = .ok r) : r.mimeOk := by
  unfold officeBranch at h
  split at h
  · split at h
    · simp at h
    · rename_i pn fs1 heq
      simp at h
      have hp := office_single_ok heq
      simp [← h, FileResp.mimeOk, hp, claimedMime]
  · split at h
    · simp at h
    · rename_i es fs1 heq
      simp at h
      simp [← h, FileResp.mimeOk]

theorem txtBranch_mime {env : Env} {b : String} {files : List UploadedFile}
    {r : FileResp} (h : txtBranch env b files = .ok r) : r.mimeOk := by
  unfold txtBranch at h
  split at h
  · split at h
    · simp at h
    · rename_i pn heq
      simp at h
      have hp := txt_single_ok heq
      simp [← h, FileResp.mimeOk, hp, claimedMime]
  · split at h
    · simp at h
    · rename_i es heq
      simp at h
      simp [← h, FileResp.mimeOk]

theorem pdfs_zip_mime {env : Env} {t b : String} {files : List UploadedFile}
    {r : FileResp} (h : pdfs_to_images_zip env t b files = .ok r) : r.mimeOk := by
  unfold pdfs_to_images_zip at h
  split at h
  · simp at h
  · split at h
    · simp at h
    · rename_i es heq
      simp at h
      simp [← h, FileResp.mimeOk]

theorem video_mime {env : Env} {files : List UploadedFile} {t b : String}
    {fs : Fs} {r : FileResp} (ht : t = "mp3" ∨ t = "wav")
    (h : (handle_video_to_audio env files t b fs).1 = .ok r) : r.mimeOk := by
  unfold handle_video_to_audio at h
  split at h
  · simp at h
  · split at h
    · simp only [withTempDir] at h
      split at h
      · simp at h
      · rename_i p heq
        cases transcode_ok heq
        simp at h
        rcases ht with h1 | h1 <;> subst h1 <;>
          simp [← h, FileResp.mimeOk, claimedMime]
    · simp only [withTempDir] at h
      split at h
      · simp at h
      · rename_i es heq
        simp at h
        simp [← h, FileResp.mimeOk]

theorem audio_mime {env : Env} {files : List UploadedFile} {t b : String}
    {fs : Fs} {r : FileResp} (ht : t = "mp4")
    (h : (handle_audio_to_video env files t b fs).1 = .ok r) : r.mimeOk := by
  subst ht
  unfold handle_audio_to_video at h
  split at h
  · simp at h
  · split at h
    · simp only [withTempDir] at h
      split at h
      · simp at h
      · rename_i p heq
        cases transcode_ok heq
        simp at h
        simp [← h, FileResp.mimeOk, claimedMime]
    · simp only [withTempDir] at h
      split at h
      · simp at h
      · rename_i es heq
        simp at h
        simp [← h, FileResp.mimeOk]

/-- C9. Confirmed: response packaging is a pure mapping from outcome to
content type. For every request and environment, every archive outcome the
handler emits carries content type application/zip, and every single-file
outcome carries the format-specific MIME of the spec-words mapping
`claimedMime` (image/png, image/jpeg — also for jpg files —,
application/pdf, audio/mpeg for mp3, audio/wav for wav, video/mp4; the
octet-stream fallbacks are unreachable for requests that pass the
capability matrix). -/
theorem c9_mime_mapping (env : Env) (fs : Fs)
    (from_format to_format pdf_mode : String) (files : List UploadedFile) :
    mimeConsistent (file_converter env from_format to_format pdf_mode files fs).1 := by
  cases hv : validate from_format to_format files with
  | some e => simp [file_converter, hv, mimeConsistent]
  | none =>
    have hmem := (validate_none_facts hv).1
    simp only [file_converter, hv]
    unfold dispatch
    split
    · exact wrap_mime (fun r hr => imageToPdfBranch_mime hr)
    split
    · rename_i hc
      exact wrap_mime (fun r hr => imageToImageBranch_mime hc.2 hr)
    split
    · exact wrap_mime (fun r hr => officeBranch_mime hr)
    split
    · exact wrap_mime (fun r hr => txtBranch_mime hr)
    split
    · split
      · trivial
      · exact wrap_mime (fun r hr => pdfs_zip_mime hr)
    split
    · rename_i hc
      exact wrap_mime (fun r hr =>
        video_mime (allowed_video_targets _ hmem hc.1) hr)
    split
    · rename_i hc
      exact wrap_mime (fun r hr =>
        audio_mime (allowed_audio_targets _ hmem hc.1) hr)
    trivial

theorem wrap_rgb {pre : String} {x : Except Exc FileResp}
    (h : ∀ r, x = .ok r → r.rgbOnly) : Outcome.rgbOnly (wrap pre x) := by
  cases x with
  | ok o => exact h o rfl
  | error e => trivial

theorem imageToPdfBranch_rgb {pdf_mode b : String} {files : List UploadedFile}
    {r : FileResp} (h : imageToPdfBranch pdf_mode b files = .ok r) : r.rgbOnly := by
  unfold imageToPdfBranch at h
  split at h
  · split at h
    · split at h
      · simp at h
      · rename_i p heq
        simp at h
        cases single_image_to_pdf_ok heq
        simp only [← h, FileResp.rgbOnly, Payload.rgbOnly]
        simp
    · split at h
      · simp at h
      · rename_i es heq
        simp at h
        simp only [← h, FileResp.rgbOnly]
        intro e he
        rw [sep_zip_ok heq e he]
        simp [Payload.rgbOnly]
  · split at h
    · simp at h
    · rename_i p heq
      simp at h
      obtain ⟨ms, rfl, hms⟩ := merge_shape heq
      simp only [← h, FileResp.rgbOnly, Payload.rgbOnly]
      exact hms

theorem imageToImageBranch_rgb {t b : String} {files : List UploadedFile}
    {r : FileResp} (h : imageToImageBranch t b files = .ok r) : r.rgbOnly := by
  unfold imageToImageBranch at h
  split at h
  · split at h
    · simp at h
    · rename_i r0 heq
      simp at h
      cases convert_single_shape heq
      simp only [← h, FileResp.rgbOnly, Payload.rgbOnly]
  · split at h
    · simp at h
    · rename_i es heq
      simp at h
      simp only [← h, FileResp.rgbOnly]
      intro e he
      rw [imagesZipEntries_ok heq e he]
      simp [Payload.rgbOnly]

/-- C10. Confirmed: for every image-to-image and image-to-PDF request,
whatever the source pixel modes (alpha, palette, or any non-RGB mode),
every image and every PDF page the handler produces is in RGB mode —
`open_image_from_uploaded` converts to RGB before any encode, so outputs
never carry transparency even when the target format supports it. -/
theorem c10_rgb_everywhere (env : Env) (fs : Fs) (s t pdf_mode : String)
    (files : List UploadedFile) (hs : s ∈ IMAGE_FORMATS)
    (ht : t ∈ IMAGE_FORMATS ∨ t = "pdf") :
    Outcome.rgbOnly (file_converter env s t pdf_mode files fs).1 := by
  cases hv : validate s t files with
  | some e => simp [file_converter, hv, Outcome.rgbOnly]
  | none =>
    simp only [file_converter, hv]
    unfold dispatch
    rcases ht with ht | ht
    · have hnp : t ≠ "pdf" := by
        intro h2
        rw [h2] at ht
        exact absurd ht (by decide)
      rw [if_neg (fun hc => hnp hc.2), if_pos ⟨hs, ht⟩]
      exact wrap_rgb (fun r hr => imageToImageBranch_rgb hr)
    · subst ht
      rw [if_pos ⟨hs, rfl⟩]
      exact wrap_rgb (fun r hr => imageToPdfBranch_rgb hr)

theorem c10_rgb_everywhere_witness :
    Outcome.rgbOnly (file_converter ⟨true, true, .ok, .ok⟩ "png" "jpg" "merge"
      [⟨"a.png", .image "RGBA"⟩, ⟨"b.png", .image "P"⟩] ⟨0, []⟩).1 :=
  c10_rgb_everywhere ⟨true, true, .ok, .ok⟩ ⟨0, []⟩ "png" "jpg" "merge"
    [⟨"a.png", .image "RGBA"⟩, ⟨"b.png", .image "P"⟩] (by decide) (by decide)

end Ezkito
